import Mathlib

/-!
# DirectiveSequencer

A shallow embedding of `ADSL/src/DirectiveSequencer.cpp` (namespace
`alexaClientSDK::adsl`) and the properties of its ingress queue, worker loop,
dispatch decision and shutdown protocol.

Conventions of the embedding:

* a `std::shared_ptr<T>` argument that may be null is an `Option T`;
* the object's members are the fields of `DirectiveSequencer`; the mutex and the
  condition variable have no field.  Each public method and each iteration of
  the worker's loop is one atomic step: `m_receivingQueue` and
  `m_isShuttingDown` are read and written only while `m_mutex` is held, and the
  part of an iteration that runs unlocked (between `lock.unlock()` and
  `lock.lock()` in `receiveDirectiveLocked`) only calls the collaborators on the
  directive already popped.  A wait on `m_wakeReceivingLoop` is the predicate
  `wake` evaluated at the start of an iteration; `notify_one` has no other
  effect;
* the directive router and the directive processor are external collaborators;
  their behaviour is a parameter (`Collaborators`), their state is carried in the
  sequencer and every call made on them, on the exception sender and on the
  receiving thread is appended to the field `calls`;
* log statements (`ACSDK_INFO`, `ACSDK_WARN`, `ACSDK_ERROR`) are not modelled.
-/

namespace alexaClientSDK
namespace adsl

/-! ## Data model -/

/-- Modelled from the spec: the class `AVSDirective` is declared outside the
sequencer's source file.  A directive has a header (namespace, name, message
identifier, dialog request identifier, the last one possibly empty) and the raw
unparsed form of the message. -/
structure AVSDirective where
  nameSpace : String
  name : String
  messageId : String
  dialogRequestId : String
  unparsedDirective : String
  deriving DecidableEq, Repr

/-- Modelled from the spec: the enumeration `avsCommon::ExceptionErrorType` is
declared in `AVSCommon/ExceptionEncountered.h`, outside the sequencer's source
file.  The sequencer names only `UNSUPPORTED_OPERATION` (the spec's fixed
"unsupported operation" classification); the other two values stand for the
remaining classifications of the enumeration. -/
inductive ExceptionErrorType where
  | UNEXPECTED_INFORMATION_RECEIVED
  | UNSUPPORTED_OPERATION
  | INTERNAL_ERROR
  deriving DecidableEq, Repr

/-- The life cycle of `m_receivingThread`: `running` after the constructor has
spawned it, `finished` once `receivingLoop` has returned (the thread is still
joinable), `joined` after `join()` (no longer joinable). -/
inductive ReceivingThread where
  | running
  | finished
  | joined
  deriving DecidableEq, Repr

/-- The C++ `std::thread::joinable()`. -/
def ReceivingThread.joinable : ReceivingThread → Bool
  | .running => true
  | .finished => true
  | .joined => false

/-- A call made by the sequencer on one of its collaborators or on its thread
handle.  `κ` is the type of a `DirectiveHandlerConfiguration`. -/
inductive Call (κ : Type) where
  /-- The call `m_directiveRouter.handleDirectiveImmediately(directive)`. -/
  | handleDirectiveImmediately (directive : AVSDirective)
  /-- The call `m_directiveProcessor->onDirective(directive)`. -/
  | processorOnDirective (directive : AVSDirective)
  /-- The call `m_exceptionSender->sendExceptionEncountered(unparsed, type, message)`. -/
  | sendExceptionEncountered (unparsedDirective : String) (type : ExceptionErrorType)
      (message : String)
  /-- The call `m_directiveProcessor->shutdown()`. -/
  | processorShutdown
  /-- The call `m_directiveProcessor->setDialogRequestId(dialogRequestId)`. -/
  | processorSetDialogRequestId (dialogRequestId : String)
  /-- The call `m_directiveRouter.addDirectiveHandlers(configuration)`. -/
  | routerAddDirectiveHandlers (configuration : κ)
  /-- The call `m_directiveRouter.removeDirectiveHandlers(configuration)`. -/
  | routerRemoveDirectiveHandlers (configuration : κ)
  /-- The call `m_receivingThread.join()`. -/
  | threadJoin
  deriving DecidableEq, Repr

/-- The behaviour of the two downstream collaborators, `DirectiveRouter` (state
`ρ`) and `DirectiveProcessor` (state `π`).  The processor is constructed with a
pointer to the router, so each of its entry points may also change the router. -/
structure Collaborators (ρ π κ : Type) where
  /-- The default-constructed `m_directiveRouter`. -/
  newRouter : ρ
  /-- The constructor `DirectiveProcessor(&m_directiveRouter)`. -/
  newProcessor : ρ → π × ρ
  handleDirectiveImmediately : ρ → AVSDirective → Bool × ρ
  addDirectiveHandlers : ρ → κ → Bool × ρ
  removeDirectiveHandlers : ρ → κ → Bool × ρ
  processorOnDirective : π → ρ → AVSDirective → Bool × π × ρ
  processorSetDialogRequestId : π → ρ → String → π × ρ
  processorShutdown : π → ρ → π × ρ

/-- The members of a `DirectiveSequencer` object, together with the log `calls`
of the calls it has made so far (oldest first).  `ε` is the type of an exception
sender. -/
structure DirectiveSequencer (ρ π ε κ : Type) where
  m_exceptionSender : ε
  m_isShuttingDown : Bool
  m_receivingQueue : List AVSDirective
  m_receivingThread : ReceivingThread
  m_directiveRouter : ρ
  m_directiveProcessor : π
  calls : List (Call κ)
  deriving DecidableEq, Repr

variable {ρ π ε κ : Type}

/-! ## Construction -/

/-- The constructor `DirectiveSequencer::DirectiveSequencer(exceptionSender)`:
the flag is initialised to false, the queue is default-constructed (empty), the
processor is created on the router and the receiving thread is spawned. -/
def DirectiveSequencer.construct (cs : Collaborators ρ π κ) (exceptionSender : ε) :
    DirectiveSequencer ρ π ε κ :=
  let p := cs.newProcessor cs.newRouter
  { m_exceptionSender := exceptionSender
    m_isShuttingDown := false
    m_receivingQueue := []
    m_receivingThread := ReceivingThread.running
    m_directiveRouter := p.2
    m_directiveProcessor := p.1
    calls := [] }

/-- The factory `DirectiveSequencer::create(exceptionSender)`: a null exception
sender gives a null handle, otherwise a newly constructed sequencer. -/
def create (cs : Collaborators ρ π κ) (exceptionSender : Option ε) :
    Option (DirectiveSequencer ρ π ε κ) :=
  match exceptionSender with
  | none => none
  | some e => some (DirectiveSequencer.construct cs e)

/-! ## Ingestion and configuration -/

/-- The method `DirectiveSequencer::onDirective(directive)`: returns false for a
null directive, false when shutting down, and otherwise pushes the directive at
the back of the queue and returns true. -/
def onDirective (s : DirectiveSequencer ρ π ε κ) (directive : Option AVSDirective) :
    Bool × DirectiveSequencer ρ π ε κ :=
  match directive with
  | none => (false, s)
  | some d =>
    if s.m_isShuttingDown then (false, s)
    else (true, { s with m_receivingQueue := s.m_receivingQueue ++ [d] })

/-- The method `DirectiveSequencer::addDirectiveHandlers(configuration)`. -/
def addDirectiveHandlers (cs : Collaborators ρ π κ) (s : DirectiveSequencer ρ π ε κ)
    (configuration : κ) : Bool × DirectiveSequencer ρ π ε κ :=
  let r := cs.addDirectiveHandlers s.m_directiveRouter configuration
  (r.1, { s with m_directiveRouter := r.2
                 calls := s.calls ++ [Call.routerAddDirectiveHandlers configuration] })

/-- The method `DirectiveSequencer::removeDirectiveHandlers(configuration)`. -/
def removeDirectiveHandlers (cs : Collaborators ρ π κ) (s : DirectiveSequencer ρ π ε κ)
    (configuration : κ) : Bool × DirectiveSequencer ρ π ε κ :=
  let r := cs.removeDirectiveHandlers s.m_directiveRouter configuration
  (r.1, { s with m_directiveRouter := r.2
                 calls := s.calls ++ [Call.routerRemoveDirectiveHandlers configuration] })

/-- The method `DirectiveSequencer::setDialogRequestId(dialogRequestId)`. -/
def setDialogRequestId (cs : Collaborators ρ π κ) (s : DirectiveSequencer ρ π ε κ)
    (dialogRequestId : String) : DirectiveSequencer ρ π ε κ :=
  let r := cs.processorSetDialogRequestId s.m_directiveProcessor s.m_directiveRouter
    dialogRequestId
  { s with m_directiveProcessor := r.1
           m_directiveRouter := r.2
           calls := s.calls ++ [Call.processorSetDialogRequestId dialogRequestId] }

/-! ## The worker -/

/-- The result of the downstream call chosen in `receiveDirectiveLocked`:
`handleDirectiveImmediately` on the router when the directive's dialog request
id is empty, `onDirective` on the processor otherwise. -/
def dispatch (cs : Collaborators ρ π κ) (s : DirectiveSequencer ρ π ε κ)
    (directive : AVSDirective) : Bool × DirectiveSequencer ρ π ε κ :=
  if directive.dialogRequestId.isEmpty then
    let r := cs.handleDirectiveImmediately s.m_directiveRouter directive
    (r.1, { s with m_directiveRouter := r.2
                   calls := s.calls ++ [Call.handleDirectiveImmediately directive] })
  else
    let r := cs.processorOnDirective s.m_directiveProcessor s.m_directiveRouter directive
    (r.1, { s with m_directiveProcessor := r.2.1
                   m_directiveRouter := r.2.2
                   calls := s.calls ++ [Call.processorOnDirective directive] })

/-- The method `DirectiveSequencer::receiveDirectiveLocked(lock)`: nothing on an
empty queue; otherwise the front directive is popped, dispatched downstream and,
when not handled, reported to the exception sender. -/
def receiveDirectiveLocked (cs : Collaborators ρ π κ) (s : DirectiveSequencer ρ π ε κ) :
    DirectiveSequencer ρ π ε κ :=
  match s.m_receivingQueue with
  | [] => s
  | directive :: rest =>
    let r := dispatch cs { s with m_receivingQueue := rest } directive
    if !r.1 then
      { r.2 with calls := r.2.calls ++
          [Call.sendExceptionEncountered directive.unparsedDirective
            ExceptionErrorType.UNSUPPORTED_OPERATION "Unsupported operation"] }
    else r.2

/-- The predicate `wake` of `receivingLoop`. -/
def wake (s : DirectiveSequencer ρ π ε κ) : Bool :=
  !s.m_receivingQueue.isEmpty || s.m_isShuttingDown

/-- What one iteration of the `while (true)` of `receivingLoop` does. -/
inductive LoopStep (S : Type) where
  /-- The wait does not return: the predicate `wake` is false. -/
  | blocked
  /-- The `break`: the loop, and with it the thread function, returns. -/
  | exited (s : S)
  /-- The iteration ran `receiveDirectiveLocked` and the loop goes on. -/
  | continued (s : S)
  deriving DecidableEq, Repr

/-- One iteration of the loop of `DirectiveSequencer::receivingLoop`: wait for
`wake`, leave the loop when shutting down, otherwise `receiveDirectiveLocked`. -/
def receivingLoopIteration (cs : Collaborators ρ π κ) (s : DirectiveSequencer ρ π ε κ) :
    LoopStep (DirectiveSequencer ρ π ε κ) :=
  if wake s then
    if s.m_isShuttingDown then
      LoopStep.exited { s with m_receivingThread := ReceivingThread.finished }
    else LoopStep.continued (receiveDirectiveLocked cs s)
  else LoopStep.blocked

/-- The method `DirectiveSequencer::receivingLoop` run while no other thread
acts, for at most `fuel` iterations.  `none`: the loop has not returned (it is
blocked in the wait, or the fuel is spent). -/
def receivingLoop (cs : Collaborators ρ π κ) :
    Nat → DirectiveSequencer ρ π ε κ → Option (DirectiveSequencer ρ π ε κ)
  | 0, _ => none
  | fuel + 1, s =>
    match receivingLoopIteration cs s with
    | LoopStep.blocked => none
    | LoopStep.exited s' => some s'
    | LoopStep.continued s' => receivingLoop cs fuel s'

/-! ## Shutdown -/

/-- The call `m_receivingThread.join()` on a joinable thread: the caller waits
until `receivingLoop` has returned.  Every iteration that goes on pops one
directive, so the queue length bounds the iterations before the loop returns or
blocks.  `none`: the join does not return. -/
def join (cs : Collaborators ρ π κ) (s : DirectiveSequencer ρ π ε κ) :
    Option (DirectiveSequencer ρ π ε κ) :=
  match s.m_receivingThread with
  | ReceivingThread.joined => none
  | ReceivingThread.finished =>
    some { s with m_receivingThread := ReceivingThread.joined
                  calls := s.calls ++ [Call.threadJoin] }
  | ReceivingThread.running =>
    (receivingLoop cs (s.m_receivingQueue.length + 1) s).map fun s' =>
      { s' with m_receivingThread := ReceivingThread.joined
                calls := s'.calls ++ [Call.threadJoin] }

/-- The method `DirectiveSequencer::shutdown()`: set the flag, join the receiving
thread if it is joinable, then shut the processor down.  `none`: the call does
not return. -/
def shutdown (cs : Collaborators ρ π κ) (s : DirectiveSequencer ρ π ε κ) :
    Option (DirectiveSequencer ρ π ε κ) :=
  let s1 := { s with m_isShuttingDown := true }
  let afterJoin := if s1.m_receivingThread.joinable then join cs s1 else some s1
  afterJoin.map fun s2 =>
    let r := cs.processorShutdown s2.m_directiveProcessor s2.m_directiveRouter
    { s2 with m_directiveProcessor := r.1
              m_directiveRouter := r.2
              calls := s2.calls ++ [Call.processorShutdown] }

/-! ## Interleavings -/

/-- The steps of the interleaving semantics: the public methods, each called by
some thread, and one iteration of the worker's loop. -/
inductive Op (κ : Type) where
  | onDirective (directive : Option AVSDirective)
  | shutdown
  | receivingLoopIteration
  | addDirectiveHandlers (configuration : κ)
  | removeDirectiveHandlers (configuration : κ)
  | setDialogRequestId (dialogRequestId : String)
  deriving DecidableEq, Repr

/-- One step.  `none`: the step cannot be taken in `s` (the worker is blocked in
its wait or its loop has already returned, or `shutdown` does not return). -/
def step (cs : Collaborators ρ π κ) (s : DirectiveSequencer ρ π ε κ) :
    Op κ → Option (DirectiveSequencer ρ π ε κ)
  | Op.onDirective directive => some (onDirective s directive).2
  | Op.shutdown => shutdown cs s
  | Op.receivingLoopIteration =>
    match s.m_receivingThread with
    | ReceivingThread.running =>
      match receivingLoopIteration cs s with
      | LoopStep.blocked => none
      | LoopStep.exited s' => some s'
      | LoopStep.continued s' => some s'
    | _ => none
  | Op.addDirectiveHandlers configuration => some (addDirectiveHandlers cs s configuration).2
  | Op.removeDirectiveHandlers configuration =>
    some (removeDirectiveHandlers cs s configuration).2
  | Op.setDialogRequestId dialogRequestId => some (setDialogRequestId cs s dialogRequestId)

/-- The directives a step accepts: the argument of an `onDirective` call that
returns true. -/
def acceptedBy (s : DirectiveSequencer ρ π ε κ) : Op κ → List AVSDirective
  | Op.onDirective (some d) => if (onDirective s (some d)).1 then [d] else []
  | _ => []

/-- Runs the steps `ops` in order from `s`; the result is the final state and the
directives accepted on the way, in arrival order.  `none`: some step cannot be
taken. -/
def run (cs : Collaborators ρ π κ) :
    DirectiveSequencer ρ π ε κ → List (Op κ) →
      Option (DirectiveSequencer ρ π ε κ × List AVSDirective)
  | s, [] => some (s, [])
  | s, op :: ops =>
    match step cs s op with
    | none => none
    | some s' => (run cs s' ops).map fun r => (r.1, acceptedBy s op ++ r.2)

/-! ## Reading the call log -/

/-- The directive handed downstream by a call, if the call is a dispatch
(`handleDirectiveImmediately` on the router or `onDirective` on the processor). -/
def Call.dispatched? : Call κ → Option AVSDirective
  | Call.handleDirectiveImmediately d => some d
  | Call.processorOnDirective d => some d
  | _ => none

/-- The directives dispatched so far, in dispatch order. -/
def dispatched (calls : List (Call κ)) : List AVSDirective :=
  calls.filterMap Call.dispatched?

/-- Whether a call is `handleDirectiveImmediately` on the router. -/
def Call.isImmediate : Call κ → Bool
  | Call.handleDirectiveImmediately _ => true
  | _ => false

/-- Whether a call is `onDirective` on the processor. -/
def Call.isOrdered : Call κ → Bool
  | Call.processorOnDirective _ => true
  | _ => false

/-- Whether a call is `sendExceptionEncountered` on the exception sender. -/
def Call.isExceptionReport : Call κ → Bool
  | Call.sendExceptionEncountered _ _ _ => true
  | _ => false

/-- Whether a call is `shutdown` on the processor. -/
def Call.isProcessorShutdown : Call κ → Bool
  | Call.processorShutdown => true
  | _ => false

/-- Whether a call is `join` on the receiving thread. -/
def Call.isThreadJoin : Call κ → Bool
  | Call.threadJoin => true
  | _ => false

/-- A call that is neither a dispatch nor an exception report. -/
def Call.isQuiet (c : Call κ) : Bool :=
  !c.isImmediate && !c.isOrdered && !c.isExceptionReport

/-- The calls appended to the log between an earlier state and a later one. -/
def callsSince (before after : DirectiveSequencer ρ π ε κ) : List (Call κ) :=
  after.calls.drop before.calls.length

/-- The state after the calls `setDialogRequestId(id)` for the ids of
`dialogRequestIds`, in order (no call at all for the empty list). -/
def configured (cs : Collaborators ρ π κ) (s : DirectiveSequencer ρ π ε κ)
    (dialogRequestIds : List String) : DirectiveSequencer ρ π ε κ :=
  dialogRequestIds.foldl (setDialogRequestId cs) s

/-! ## Sample collaborators and states -/

/-- A router and a processor without state that handle nothing. -/
def idleCollaborators : Collaborators Unit Unit Unit where
  newRouter := ()
  newProcessor := fun _ => ((), ())
  handleDirectiveImmediately := fun _ _ => (false, ())
  addDirectiveHandlers := fun _ _ => (true, ())
  removeDirectiveHandlers := fun _ _ => (true, ())
  processorOnDirective := fun _ _ _ => (false, (), ())
  processorSetDialogRequestId := fun _ _ _ => ((), ())
  processorShutdown := fun _ _ => ((), ())

/-- A router and a processor without state that handle everything. -/
def eagerCollaborators : Collaborators Unit Unit Unit where
  newRouter := ()
  newProcessor := fun _ => ((), ())
  handleDirectiveImmediately := fun _ _ => (true, ())
  addDirectiveHandlers := fun _ _ => (true, ())
  removeDirectiveHandlers := fun _ _ => (true, ())
  processorOnDirective := fun _ _ _ => (true, (), ())
  processorSetDialogRequestId := fun _ _ _ => ((), ())
  processorShutdown := fun _ _ => ((), ())

/-- A directive without dialog request id. -/
def directiveA : AVSDirective :=
  { nameSpace := "System", name := "ResetUserInactivity", messageId := "m1",
    dialogRequestId := "", unparsedDirective := "rawA" }

/-- A directive of the dialog `s1`. -/
def directiveB : AVSDirective :=
  { nameSpace := "SpeechSynthesizer", name := "Speak", messageId := "m2",
    dialogRequestId := "s1", unparsedDirective := "rawB" }

/-- A newly constructed sequencer on the idle collaborators. -/
def freshIdle : DirectiveSequencer Unit Unit Unit Unit :=
  DirectiveSequencer.construct idleCollaborators ()

/-- A newly constructed sequencer on the eager collaborators. -/
def freshEager : DirectiveSequencer Unit Unit Unit Unit :=
  DirectiveSequencer.construct eagerCollaborators ()

/-- The idle sequencer after `onDirective(directiveA)`, `onDirective(directiveB)`. -/
def queuedIdle : DirectiveSequencer Unit Unit Unit Unit :=
  { freshIdle with m_receivingQueue := [directiveA, directiveB] }

/-- The idle sequencer with only `directiveB` queued. -/
def queuedIdleB : DirectiveSequencer Unit Unit Unit Unit :=
  { freshIdle with m_receivingQueue := [directiveB] }

/-- The eager sequencer after `onDirective(directiveA)`, `onDirective(directiveB)`. -/
def queuedEager : DirectiveSequencer Unit Unit Unit Unit :=
  { freshEager with m_receivingQueue := [directiveA, directiveB] }

/-- The eager sequencer with only `directiveB` queued. -/
def queuedEagerB : DirectiveSequencer Unit Unit Unit Unit :=
  { freshEager with m_receivingQueue := [directiveB] }

/-- A sequencer on the idle collaborators after `onDirective(directiveB)` and
`shutdown()`: the flag is set, `directiveB` is still queued, the thread is
joined. -/
def stoppedIdle : DirectiveSequencer Unit Unit Unit Unit :=
  { freshIdle with
    m_isShuttingDown := true
    m_receivingQueue := [directiveB]
    m_receivingThread := ReceivingThread.joined
    calls := [Call.threadJoin, Call.processorShutdown] }

/-- The state `stoppedIdle` after one more `shutdown()`. -/
def stoppedIdleTwice : DirectiveSequencer Unit Unit Unit Unit :=
  { stoppedIdle with
    calls := [Call.threadJoin, Call.processorShutdown, Call.processorShutdown] }

/-- A sequencer on the idle collaborators whose flag has just been set while
`directiveB` is queued and the worker has not yet run. -/
def stoppingIdle : DirectiveSequencer Unit Unit Unit Unit :=
  { freshIdle with m_isShuttingDown := true, m_receivingQueue := [directiveB] }

/-- The newly constructed idle sequencer after one `shutdown()`. -/
def shutIdle : DirectiveSequencer Unit Unit Unit Unit :=
  { freshIdle with
    m_isShuttingDown := true
    m_receivingThread := ReceivingThread.joined
    calls := [Call.threadJoin, Call.processorShutdown] }

/-- The newly constructed idle sequencer after two `shutdown()` calls. -/
def shutIdleTwice : DirectiveSequencer Unit Unit Unit Unit :=
  { shutIdle with
    calls := [Call.threadJoin, Call.processorShutdown, Call.processorShutdown] }

/-- A router and a processor that each count the calls of their dispatch entry
point: the router's state is the number of `handleDirectiveImmediately` calls
it has received, the processor's state the number of `onDirective` calls.  The
router handles nothing, the processor everything. -/
def countingCollaborators : Collaborators Nat Nat Unit where
  newRouter := 0
  newProcessor := fun r => (0, r)
  handleDirectiveImmediately := fun r _ => (false, r + 1)
  addDirectiveHandlers := fun r _ => (true, r)
  removeDirectiveHandlers := fun r _ => (true, r)
  processorOnDirective := fun p r _ => (true, p + 1, r)
  processorSetDialogRequestId := fun p r _ => (p, r)
  processorShutdown := fun p r => (p, r)

/-- The counting sequencer after `onDirective(directiveA)`,
`onDirective(directiveB)`. -/
def queuedCounting : DirectiveSequencer Nat Nat Unit Unit :=
  { DirectiveSequencer.construct countingCollaborators () with
    m_receivingQueue := [directiveA, directiveB] }

/-- The counting sequencer with only `directiveB` queued. -/
def queuedCountingB : DirectiveSequencer Nat Nat Unit Unit :=
  { DirectiveSequencer.construct countingCollaborators () with
    m_receivingQueue := [directiveB] }

/-! ## Basic facts -/

/-- The dispatched directives of a log in two parts. -/
theorem dispatched_append (xs ys : List (Call κ)) :
    dispatched (xs ++ ys) = dispatched xs ++ dispatched ys := by
  simp [dispatched, List.filterMap_append]

/-- The calls made since a state whose log is an initial segment of the later log. -/
theorem callsSince_of_append (a b : DirectiveSequencer ρ π ε κ) (new : List (Call κ))
    (h : b.calls = a.calls ++ new) : callsSince a b = new := by
  simp [callsSince, h]

/-- Once the flag is set, the loop run alone returns at its first iteration,
with the queue and the call log untouched. -/
theorem receivingLoop_shuttingDown (cs : Collaborators ρ π κ) (s : DirectiveSequencer ρ π ε κ)
    (fuel : Nat) (h : s.m_isShuttingDown = true) :
    receivingLoop cs (fuel + 1) s =
      some { s with m_receivingThread := ReceivingThread.finished } := by
  simp [receivingLoop, receivingLoopIteration, wake, h]

/-- The method `shutdown` always returns, and this is the state it returns in. -/
theorem shutdown_eq (cs : Collaborators ρ π κ) (s : DirectiveSequencer ρ π ε κ) :
    shutdown cs s = some
      { s with
        m_isShuttingDown := true
        m_receivingThread := ReceivingThread.joined
        m_directiveProcessor := (cs.processorShutdown s.m_directiveProcessor s.m_directiveRouter).1
        m_directiveRouter := (cs.processorShutdown s.m_directiveProcessor s.m_directiveRouter).2
        calls := s.calls ++
          (if s.m_receivingThread.joinable then [Call.threadJoin] else []) ++
          [Call.processorShutdown] } := by
  rcases s with ⟨e, f, q, t, r, p, c⟩
  cases t <;>
    simp [shutdown, join, ReceivingThread.joinable, receivingLoop, receivingLoopIteration, wake]

/-- A step taken while the flag is set keeps the flag and the queue, accepts
nothing, and appends only quiet calls to the log. -/
theorem step_shuttingDown (cs : Collaborators ρ π κ) (s s' : DirectiveSequencer ρ π ε κ)
    (op : Op κ) (h : s.m_isShuttingDown = true) (hs : step cs s op = some s') :
    s'.m_isShuttingDown = true ∧ s'.m_receivingQueue = s.m_receivingQueue ∧
      acceptedBy s op = [] ∧
      ∃ new, s'.calls = s.calls ++ new ∧ ∀ c ∈ new, c.isQuiet = true := by
  cases op with
  | onDirective directive =>
    cases directive with
    | none =>
      simp only [step, onDirective, Option.some.injEq] at hs
      subst hs
      exact ⟨h, rfl, rfl, [], by simp, by simp⟩
    | some d =>
      simp only [step, onDirective, h, if_true, Option.some.injEq] at hs
      subst hs
      exact ⟨h, rfl, by simp [acceptedBy, onDirective, h], [], by simp, by simp⟩
  | shutdown =>
    simp only [step, shutdown_eq, Option.some.injEq] at hs
    subst hs
    refine ⟨rfl, rfl, rfl, _, List.append_assoc _ _ _, ?_⟩
    intro c hc
    cases hj : s.m_receivingThread.joinable <;>
      simp [hj] at hc <;> rcases hc with rfl | rfl <;> rfl
  | receivingLoopIteration =>
    cases ht : s.m_receivingThread <;>
      simp [step, ht, receivingLoopIteration, wake, h] at hs
    subst hs
    exact ⟨rfl, rfl, rfl, [], by simp, by simp⟩
  | addDirectiveHandlers configuration =>
    simp only [step, addDirectiveHandlers, Option.some.injEq] at hs
    subst hs
    exact ⟨h, rfl, rfl, _, rfl, by simp [Call.isQuiet, Call.isImmediate, Call.isOrdered,
      Call.isExceptionReport]⟩
  | removeDirectiveHandlers configuration =>
    simp only [step, removeDirectiveHandlers, Option.some.injEq] at hs
    subst hs
    exact ⟨h, rfl, rfl, _, rfl, by simp [Call.isQuiet, Call.isImmediate, Call.isOrdered,
      Call.isExceptionReport]⟩
  | setDialogRequestId dialogRequestId =>
    simp only [step, setDialogRequestId, Option.some.injEq] at hs
    subst hs
    exact ⟨h, rfl, rfl, _, rfl, by simp [Call.isQuiet, Call.isImmediate, Call.isOrdered,
      Call.isExceptionReport]⟩

/-- The same over any number of steps. -/
theorem run_shuttingDown (cs : Collaborators ρ π κ) (ops : List (Op κ)) :
    ∀ (s : DirectiveSequencer ρ π ε κ) (r : DirectiveSequencer ρ π ε κ × List AVSDirective),
      s.m_isShuttingDown = true → run cs s ops = some r →
      r.1.m_isShuttingDown = true ∧ r.1.m_receivingQueue = s.m_receivingQueue ∧ r.2 = [] ∧
        ∃ new, r.1.calls = s.calls ++ new ∧ ∀ c ∈ new, c.isQuiet = true := by
  induction ops with
  | nil =>
    intro s r h hr
    simp only [run, Option.some.injEq] at hr
    subst hr
    exact ⟨h, rfl, rfl, [], by simp, by simp⟩
  | cons op ops ih =>
    intro s r h hr
    cases hs : step cs s op with
    | none => simp [run, hs] at hr
    | some s' =>
      obtain ⟨hf, hq, ha, new1, hc1, hn1⟩ := step_shuttingDown cs s s' op h hs
      cases hrun : run cs s' ops with
      | none => simp [run, hs, hrun] at hr
      | some r' =>
        simp only [run, hs, hrun, Option.map_some', Option.some.injEq] at hr
        subst hr
        obtain ⟨hf2, hq2, ha2, new2, hc2, hn2⟩ := ih s' r' hf hrun
        refine ⟨hf2, hq2.trans hq, by simp [ha, ha2], new1 ++ new2, ?_, ?_⟩
        · rw [hc2, hc1, List.append_assoc]
        · intro c hc
          rcases List.mem_append.mp hc with hc | hc
          · exact hn1 c hc
          · exact hn2 c hc

/-- Quiet calls contain no dispatch. -/
theorem dispatched_quiet (new : List (Call κ)) (h : ∀ c ∈ new, c.isQuiet = true) :
    dispatched new = [] := by
  induction new with
  | nil => rfl
  | cons c cs ih =>
    have hc := h c (List.mem_cons_self _ _)
    have ih2 := ih (fun x hx => h x (List.mem_cons_of_mem _ hx))
    cases c <;>
      simp_all [dispatched, Call.dispatched?, Call.isQuiet, Call.isImmediate, Call.isOrdered]

/-! ## Ingestion -/

/-- C1: in a state that is not shutting down, `onDirective` on a non-null
directive `d` returns true, the new queue is the old queue with `d` appended at
the tail, and nothing else changes: the flag is as before and no call is made
(nothing is dispatched by the call itself). -/
theorem onDirective_accepts (s : DirectiveSequencer ρ π ε κ) (d : AVSDirective)
    (h : s.m_isShuttingDown = false) :
    (onDirective s (some d)).1 = true ∧
      (onDirective s (some d)).2.m_receivingQueue = s.m_receivingQueue ++ [d] ∧
      (onDirective s (some d)).2.m_isShuttingDown = s.m_isShuttingDown ∧
      (onDirective s (some d)).2.calls = s.calls ∧
      (onDirective s (some d)).2 = { s with m_receivingQueue := s.m_receivingQueue ++ [d] } := by
  simp [onDirective, h]

/-- The newly constructed idle sequencer accepts `directiveA`. -/
theorem onDirective_accepts_witness :
    freshIdle.m_isShuttingDown = false ∧
      (onDirective freshIdle (some directiveA)).1 = true ∧
      (onDirective freshIdle (some directiveA)).2.m_receivingQueue = [directiveA] :=
  ⟨rfl, (onDirective_accepts freshIdle directiveA rfl).1,
    (onDirective_accepts freshIdle directiveA rfl).2.1⟩

/-- C2: in every state, running or shutting down, `onDirective` on a null
directive returns false and returns the state as it was (queue and flag
included). -/
theorem onDirective_null (s : DirectiveSequencer ρ π ε κ) :
    onDirective s none = (false, s) ∧
      (onDirective s none).2.m_receivingQueue = s.m_receivingQueue ∧
      (onDirective s none).2.m_isShuttingDown = s.m_isShuttingDown := by
  simp [onDirective]

/-- C3: in a state that is shutting down, `onDirective` on a non-null directive
`d` returns false and leaves the state unchanged; `d` is not queued, and in every
later state the queue is still the one before the call and the directives
dispatched are still those dispatched before the call. -/
theorem onDirective_rejects_when_shuttingDown (cs : Collaborators ρ π κ)
    (s : DirectiveSequencer ρ π ε κ) (d : AVSDirective) (h : s.m_isShuttingDown = true) :
    onDirective s (some d) = (false, s) ∧
      ∀ (ops : List (Op κ)) (r : DirectiveSequencer ρ π ε κ × List AVSDirective),
        run cs (onDirective s (some d)).2 ops = some r →
          r.1.m_receivingQueue = s.m_receivingQueue ∧
            dispatched r.1.calls = dispatched s.calls := by
  have h0 : onDirective s (some d) = (false, s) := by simp [onDirective, h]
  refine ⟨h0, ?_⟩
  intro ops r hr
  rw [h0] at hr
  obtain ⟨_, hq, _, new, hc, hn⟩ := run_shuttingDown cs ops s r h hr
  exact ⟨hq, by rw [hc, dispatched_append, dispatched_quiet new hn, List.append_nil]⟩

/-- The stopped idle sequencer rejects `directiveA`, also after further steps. -/
theorem onDirective_rejects_when_shuttingDown_witness :
    stoppedIdle.m_isShuttingDown = true ∧
      onDirective stoppedIdle (some directiveA) = (false, stoppedIdle) ∧
      run idleCollaborators (onDirective stoppedIdle (some directiveA)).2
        [Op.onDirective (some directiveA), Op.shutdown] = some (stoppedIdleTwice, []) ∧
      stoppedIdleTwice.m_receivingQueue = stoppedIdle.m_receivingQueue ∧
      dispatched stoppedIdleTwice.calls = dispatched stoppedIdle.calls :=
  ⟨rfl, (onDirective_rejects_when_shuttingDown idleCollaborators stoppedIdle directiveA rfl).1,
    rfl,
    (onDirective_rejects_when_shuttingDown idleCollaborators stoppedIdle directiveA rfl).2
      [Op.onDirective (some directiveA), Op.shutdown] (stoppedIdleTwice, []) rfl⟩

/-! ## Shutdown and the worker -/

/-- C7: in a state whose flag is set, whatever the queue holds, the next
iteration of the worker loop leaves the loop with the queue and the call log
untouched (nothing is dequeued or dispatched), so the loop returns; and in every
later state the queue is still the same and every call made since is neither a
dispatch (`handleDirectiveImmediately`, processor `onDirective`) nor an exception
report: the queued directives are never dispatched. -/
theorem receivingLoop_exits_when_shuttingDown (cs : Collaborators ρ π κ)
    (s : DirectiveSequencer ρ π ε κ) (h : s.m_isShuttingDown = true) :
    receivingLoopIteration cs s =
        LoopStep.exited { s with m_receivingThread := ReceivingThread.finished } ∧
      (∀ fuel, receivingLoop cs (fuel + 1) s =
        some { s with m_receivingThread := ReceivingThread.finished }) ∧
      ∀ (ops : List (Op κ)) (r : DirectiveSequencer ρ π ε κ × List AVSDirective),
        run cs s ops = some r →
          r.1.m_receivingQueue = s.m_receivingQueue ∧
            dispatched r.1.calls = dispatched s.calls ∧
            ∃ new, r.1.calls = s.calls ++ new ∧
              ∀ c ∈ new, c.isImmediate = false ∧ c.isOrdered = false ∧
                c.isExceptionReport = false := by
  refine ⟨by simp [receivingLoopIteration, wake, h],
    fun fuel => receivingLoop_shuttingDown cs s fuel h, ?_⟩
  intro ops r hr
  obtain ⟨_, hq, _, new, hc, hn⟩ := run_shuttingDown cs ops s r h hr
  refine ⟨hq, by rw [hc, dispatched_append, dispatched_quiet new hn, List.append_nil],
    new, hc, ?_⟩
  intro c hcm
  have := hn c hcm
  simpa [Call.isQuiet, and_assoc] using this

/-- With the flag set and `directiveB` queued, the worker leaves its loop and
`directiveB` stays queued through the shutdown. -/
theorem receivingLoop_exits_when_shuttingDown_witness :
    stoppingIdle.m_isShuttingDown = true ∧
      receivingLoopIteration idleCollaborators stoppingIdle =
        LoopStep.exited { stoppingIdle with m_receivingThread := ReceivingThread.finished } ∧
      run idleCollaborators stoppingIdle [Op.receivingLoopIteration, Op.shutdown] =
        some (stoppedIdle, []) ∧
      stoppedIdle.m_receivingQueue = stoppingIdle.m_receivingQueue ∧
      dispatched stoppedIdle.calls = dispatched stoppingIdle.calls :=
  ⟨rfl, (receivingLoop_exits_when_shuttingDown idleCollaborators stoppingIdle rfl).1, rfl,
    ((receivingLoop_exits_when_shuttingDown idleCollaborators stoppingIdle rfl).2.2
      [Op.receivingLoopIteration, Op.shutdown] (stoppedIdle, []) rfl).1,
    ((receivingLoop_exits_when_shuttingDown idleCollaborators stoppingIdle rfl).2.2
      [Op.receivingLoopIteration, Op.shutdown] (stoppedIdle, []) rfl).2.1⟩

/-- C10: no transition returns to the running state.  From a state whose flag is
set, after any steps (`onDirective`, `shutdown`, a worker-loop iteration,
`addDirectiveHandlers`, `removeDirectiveHandlers`, `setDialogRequestId`) the flag
is still set, the queue is the same (nothing dequeued, nothing appended) and no
directive has been accepted. -/
theorem shuttingDown_is_permanent (cs : Collaborators ρ π κ) (s : DirectiveSequencer ρ π ε κ)
    (ops : List (Op κ)) (r : DirectiveSequencer ρ π ε κ × List AVSDirective)
    (h : s.m_isShuttingDown = true) (hr : run cs s ops = some r) :
    r.1.m_isShuttingDown = true ∧ r.1.m_receivingQueue = s.m_receivingQueue ∧ r.2 = [] := by
  obtain ⟨hf, hq, ha, _⟩ := run_shuttingDown cs ops s r h hr
  exact ⟨hf, hq, ha⟩

/-! ## Construction -/

/-- C9: `create` returns a null handle exactly when the exception sender is
null (no sequencer is constructed, hence no thread spawned); for every non-null
exception sender it returns a sequencer that holds this sender, is not shutting
down, has an empty queue, a running receiving thread and has made no call yet. -/
theorem create_null_iff (cs : Collaborators ρ π κ) (exceptionSender : Option ε) :
    (create cs exceptionSender = none ↔ exceptionSender = none) ∧
      ∀ e : ε, ∃ s : DirectiveSequencer ρ π ε κ,
        create cs (some e) = some s ∧ s.m_exceptionSender = e ∧
          s.m_isShuttingDown = false ∧ s.m_receivingQueue = [] ∧
          s.m_receivingThread = ReceivingThread.running ∧ s.calls = [] := by
  refine ⟨?_, fun e => ⟨DirectiveSequencer.construct cs e, rfl, rfl, rfl, rfl, rfl, rfl⟩⟩
  cases exceptionSender <;> simp [create]

/-! ## Dispatch -/

/-- What `receiveDirectiveLocked` does on a non-empty queue, field by field. -/
theorem receiveDirectiveLocked_cons (cs : Collaborators ρ π κ) (s : DirectiveSequencer ρ π ε κ)
    (d : AVSDirective) (rest : List AVSDirective) (hq : s.m_receivingQueue = d :: rest) :
    (receiveDirectiveLocked cs s).m_receivingQueue = rest ∧
      (receiveDirectiveLocked cs s).m_isShuttingDown = s.m_isShuttingDown ∧
      (receiveDirectiveLocked cs s).m_receivingThread = s.m_receivingThread ∧
      (d.dialogRequestId = "" →
        (receiveDirectiveLocked cs s).calls = s.calls ++
          Call.handleDirectiveImmediately d ::
            (if (cs.handleDirectiveImmediately s.m_directiveRouter d).1 then []
             else [Call.sendExceptionEncountered d.unparsedDirective
               ExceptionErrorType.UNSUPPORTED_OPERATION "Unsupported operation"])) ∧
      (d.dialogRequestId ≠ "" →
        (receiveDirectiveLocked cs s).calls = s.calls ++
          Call.processorOnDirective d ::
            (if (cs.processorOnDirective s.m_directiveProcessor s.m_directiveRouter d).1 then []
             else [Call.sendExceptionEncountered d.unparsedDirective
               ExceptionErrorType.UNSUPPORTED_OPERATION "Unsupported operation"])) := by
  by_cases he : d.dialogRequestId = ""
  · have he2 : d.dialogRequestId.isEmpty = true := (String.isEmpty_iff _).mpr he
    refine ⟨?_, ?_, ?_, fun _ => ?_, fun hne => absurd he hne⟩ <;>
      cases hh : (cs.handleDirectiveImmediately s.m_directiveRouter d).1 <;>
      simp [receiveDirectiveLocked, hq, dispatch, he2, hh]
  · have he2 : d.dialogRequestId.isEmpty = false := by
      cases hb : d.dialogRequestId.isEmpty
      · rfl
      · exact absurd ((String.isEmpty_iff _).mp hb) he
    refine ⟨?_, ?_, ?_, fun heq => absurd heq he, fun _ => ?_⟩ <;>
      cases hh : (cs.processorOnDirective s.m_directiveProcessor s.m_directiveRouter d).1 <;>
      simp [receiveDirectiveLocked, hq, dispatch, he2, hh]

/-- Configuring dialog request ids does not touch the queue. -/
theorem configured_queue (cs : Collaborators ρ π κ) (ids : List String) :
    ∀ s : DirectiveSequencer ρ π ε κ,
      (configured cs s ids).m_receivingQueue = s.m_receivingQueue := by
  induction ids with
  | nil => intro s; rfl
  | cons i ids ih =>
    intro s
    have := ih (setDialogRequestId cs s i)
    simpa [configured, setDialogRequestId] using this

/-- The state `receiveDirectiveLocked` returns in on a non-empty queue, member by
member: which collaborator was invoked, with which arguments, and what was
logged. -/
theorem receiveDirectiveLocked_state (cs : Collaborators ρ π κ)
    (s : DirectiveSequencer ρ π ε κ) (d : AVSDirective) (rest : List AVSDirective)
    (hq : s.m_receivingQueue = d :: rest) :
    (d.dialogRequestId = "" →
      receiveDirectiveLocked cs s =
        { s with
          m_receivingQueue := rest
          m_directiveRouter := (cs.handleDirectiveImmediately s.m_directiveRouter d).2
          calls := s.calls ++
            Call.handleDirectiveImmediately d ::
              (if (cs.handleDirectiveImmediately s.m_directiveRouter d).1 then []
               else [Call.sendExceptionEncountered d.unparsedDirective
                 ExceptionErrorType.UNSUPPORTED_OPERATION "Unsupported operation"]) }) ∧
      (d.dialogRequestId ≠ "" →
        receiveDirectiveLocked cs s =
          { s with
            m_receivingQueue := rest
            m_directiveProcessor :=
              (cs.processorOnDirective s.m_directiveProcessor s.m_directiveRouter d).2.1
            m_directiveRouter :=
              (cs.processorOnDirective s.m_directiveProcessor s.m_directiveRouter d).2.2
            calls := s.calls ++
              Call.processorOnDirective d ::
                (if (cs.processorOnDirective s.m_directiveProcessor s.m_directiveRouter d).1
                 then []
                 else [Call.sendExceptionEncountered d.unparsedDirective
                   ExceptionErrorType.UNSUPPORTED_OPERATION "Unsupported operation"]) }) := by
  by_cases he : d.dialogRequestId = ""
  · have he2 : d.dialogRequestId.isEmpty = true := (String.isEmpty_iff _).mpr he
    refine ⟨fun _ => ?_, fun hne => absurd he hne⟩
    cases hh : (cs.handleDirectiveImmediately s.m_directiveRouter d).1 <;>
      simp [receiveDirectiveLocked, hq, dispatch, he2, hh]
  · have he2 : d.dialogRequestId.isEmpty = false := by
      cases hb : d.dialogRequestId.isEmpty
      · rfl
      · exact absurd ((String.isEmpty_iff _).mp hb) he
    refine ⟨fun heq => absurd heq he, fun _ => ?_⟩
    cases hh : (cs.processorOnDirective s.m_directiveProcessor s.m_directiveRouter d).1 <;>
      simp [receiveDirectiveLocked, hq, dispatch, he2, hh]

/-- C4: whatever dialog request ids have been configured before (`ids`, possibly
none; `s0` is the state they leave), the worker's handling of the directive `d`
at the front of the queue calls exactly one downstream entry point, once.

When `d.dialogRequestId` is empty, the state it returns in is `s0` with `d`
popped, the router replaced by the router after `handleDirectiveImmediately d`
and the processor left as it was (the ordered processor is not invoked); the
calls made are exactly `handleDirectiveImmediately d`, followed by the exception
report if and only if that call returned false.

When `d.dialogRequestId` is not empty, the state it returns in is `s0` with `d`
popped and processor and router replaced by those after the processor's
`onDirective d` (the router's `handleDirectiveImmediately` is not invoked by the
sequencer); the calls made are exactly the processor's `onDirective d`, followed
by the exception report if and only if that call returned false.

In both cases the calls made hold one dispatch call of the chosen kind and none
of the other kind. -/
theorem receiveDirectiveLocked_routes_once (cs : Collaborators ρ π κ)
    (s s0 : DirectiveSequencer ρ π ε κ) (ids : List String) (d : AVSDirective)
    (rest : List AVSDirective) (hq : s.m_receivingQueue = d :: rest)
    (h0 : s0 = configured cs s ids) :
    (d.dialogRequestId = "" →
      receiveDirectiveLocked cs s0 =
          { s0 with
            m_receivingQueue := rest
            m_directiveRouter := (cs.handleDirectiveImmediately s0.m_directiveRouter d).2
            calls := s0.calls ++
              Call.handleDirectiveImmediately d ::
                (if (cs.handleDirectiveImmediately s0.m_directiveRouter d).1 then []
                 else [Call.sendExceptionEncountered d.unparsedDirective
                   ExceptionErrorType.UNSUPPORTED_OPERATION "Unsupported operation"]) } ∧
        (receiveDirectiveLocked cs s0).m_directiveProcessor = s0.m_directiveProcessor ∧
        callsSince s0 (receiveDirectiveLocked cs s0) =
          Call.handleDirectiveImmediately d ::
            (if (cs.handleDirectiveImmediately s0.m_directiveRouter d).1 then []
             else [Call.sendExceptionEncountered d.unparsedDirective
               ExceptionErrorType.UNSUPPORTED_OPERATION "Unsupported operation"]) ∧
        (callsSince s0 (receiveDirectiveLocked cs s0)).filter Call.isImmediate =
          [Call.handleDirectiveImmediately d] ∧
        (callsSince s0 (receiveDirectiveLocked cs s0)).filter Call.isOrdered = []) ∧
      (d.dialogRequestId ≠ "" →
        receiveDirectiveLocked cs s0 =
          { s0 with
            m_receivingQueue := rest
            m_directiveProcessor :=
              (cs.processorOnDirective s0.m_directiveProcessor s0.m_directiveRouter d).2.1
            m_directiveRouter :=
              (cs.processorOnDirective s0.m_directiveProcessor s0.m_directiveRouter d).2.2
            calls := s0.calls ++
              Call.processorOnDirective d ::
                (if (cs.processorOnDirective s0.m_directiveProcessor
                      s0.m_directiveRouter d).1
                 then []
                 else [Call.sendExceptionEncountered d.unparsedDirective
                   ExceptionErrorType.UNSUPPORTED_OPERATION "Unsupported operation"]) } ∧
        callsSince s0 (receiveDirectiveLocked cs s0) =
          Call.processorOnDirective d ::
            (if (cs.processorOnDirective s0.m_directiveProcessor s0.m_directiveRouter d).1
             then []
             else [Call.sendExceptionEncountered d.unparsedDirective
               ExceptionErrorType.UNSUPPORTED_OPERATION "Unsupported operation"]) ∧
        (callsSince s0 (receiveDirectiveLocked cs s0)).filter Call.isOrdered =
          [Call.processorOnDirective d] ∧
        (callsSince s0 (receiveDirectiveLocked cs s0)).filter Call.isImmediate = []) := by
  have hq0 : s0.m_receivingQueue = d :: rest := by
    rw [h0, configured_queue, hq]
  obtain ⟨hE, hN⟩ := receiveDirectiveLocked_state cs s0 d rest hq0
  refine ⟨fun he => ?_, fun he => ?_⟩
  · have hst := hE he
    have hcalls : callsSince s0 (receiveDirectiveLocked cs s0) =
        Call.handleDirectiveImmediately d ::
          (if (cs.handleDirectiveImmediately s0.m_directiveRouter d).1 then []
           else [Call.sendExceptionEncountered d.unparsedDirective
             ExceptionErrorType.UNSUPPORTED_OPERATION "Unsupported operation"]) :=
      callsSince_of_append _ _ _ (by rw [hst])
    refine ⟨hst, by rw [hst], hcalls, ?_, ?_⟩ <;>
      rw [hcalls] <;>
      cases (cs.handleDirectiveImmediately s0.m_directiveRouter d).1 <;>
      simp [Call.isImmediate, Call.isOrdered]
  · have hst := hN he
    have hcalls : callsSince s0 (receiveDirectiveLocked cs s0) =
        Call.processorOnDirective d ::
          (if (cs.processorOnDirective s0.m_directiveProcessor s0.m_directiveRouter d).1
           then []
           else [Call.sendExceptionEncountered d.unparsedDirective
             ExceptionErrorType.UNSUPPORTED_OPERATION "Unsupported operation"]) :=
      callsSince_of_append _ _ _ (by rw [hst])
    refine ⟨hst, hcalls, ?_, ?_⟩ <;>
      rw [hcalls] <;>
      cases (cs.processorOnDirective s0.m_directiveProcessor s0.m_directiveRouter d).1 <;>
      simp [Call.isImmediate, Call.isOrdered]

/-- On collaborators that count their dispatch calls, the worker hands
`directiveA` to the router only and `directiveB` to the processor only, whatever
dialog request ids are configured. -/
theorem receiveDirectiveLocked_routes_once_witness :
    queuedCounting.m_receivingQueue = [directiveA, directiveB] ∧
      directiveA.dialogRequestId = "" ∧
      receiveDirectiveLocked countingCollaborators
          (configured countingCollaborators queuedCounting ["s1"]) =
        { queuedCounting with
          m_receivingQueue := [directiveB]
          m_directiveRouter := 1
          m_directiveProcessor := 0
          calls :=
            [Call.processorSetDialogRequestId "s1",
             Call.handleDirectiveImmediately directiveA,
             Call.sendExceptionEncountered "rawA" ExceptionErrorType.UNSUPPORTED_OPERATION
               "Unsupported operation"] } ∧
      queuedCountingB.m_receivingQueue = [directiveB] ∧
      directiveB.dialogRequestId ≠ "" ∧
      receiveDirectiveLocked countingCollaborators
          (configured countingCollaborators queuedCountingB ["s2", "s1"]) =
        { queuedCountingB with
          m_receivingQueue := []
          m_directiveRouter := 0
          m_directiveProcessor := 1
          calls :=
            [Call.processorSetDialogRequestId "s2", Call.processorSetDialogRequestId "s1",
             Call.processorOnDirective directiveB] } :=
  ⟨rfl, rfl,
    ((receiveDirectiveLocked_routes_once countingCollaborators queuedCounting
      (configured countingCollaborators queuedCounting ["s1"]) ["s1"] directiveA
      [directiveB] rfl rfl).1 rfl).1,
    rfl, by decide,
    ((receiveDirectiveLocked_routes_once countingCollaborators queuedCountingB
      (configured countingCollaborators queuedCountingB ["s2", "s1"]) ["s2", "s1"] directiveB
      [] rfl rfl).2 (by decide)).1⟩

/-- C5: when the worker handles the directive `d` at the front of the queue and
the downstream call chosen for `d` (the router's `handleDirectiveImmediately` for
an empty dialog request id, the processor's `onDirective` otherwise) returns
false, the exception sender receives exactly one report, carrying
`d.unparsedDirective`, the type `UNSUPPORTED_OPERATION` and the message
"Unsupported operation"; when the call returns true it receives none. -/
theorem receiveDirectiveLocked_reports_unhandled (cs : Collaborators ρ π κ)
    (s : DirectiveSequencer ρ π ε κ) (d : AVSDirective) (rest : List AVSDirective)
    (hq : s.m_receivingQueue = d :: rest) :
    (∃ new, (receiveDirectiveLocked cs s).calls = s.calls ++ new) ∧
      (d.dialogRequestId = "" →
        (cs.handleDirectiveImmediately s.m_directiveRouter d).1 = false →
        (callsSince s (receiveDirectiveLocked cs s)).filter Call.isExceptionReport =
          [Call.sendExceptionEncountered d.unparsedDirective
            ExceptionErrorType.UNSUPPORTED_OPERATION "Unsupported operation"]) ∧
      (d.dialogRequestId = "" →
        (cs.handleDirectiveImmediately s.m_directiveRouter d).1 = true →
        (callsSince s (receiveDirectiveLocked cs s)).filter Call.isExceptionReport = []) ∧
      (d.dialogRequestId ≠ "" →
        (cs.processorOnDirective s.m_directiveProcessor s.m_directiveRouter d).1 = false →
        (callsSince s (receiveDirectiveLocked cs s)).filter Call.isExceptionReport =
          [Call.sendExceptionEncountered d.unparsedDirective
            ExceptionErrorType.UNSUPPORTED_OPERATION "Unsupported operation"]) ∧
      (d.dialogRequestId ≠ "" →
        (cs.processorOnDirective s.m_directiveProcessor s.m_directiveRouter d).1 = true →
        (callsSince s (receiveDirectiveLocked cs s)).filter Call.isExceptionReport = []) := by
  obtain ⟨_, _, _, hE, hN⟩ := receiveDirectiveLocked_cons cs s d rest hq
  refine ⟨?_, ?_, ?_, ?_, ?_⟩
  · by_cases he : d.dialogRequestId = ""
    · exact ⟨_, hE he⟩
    · exact ⟨_, hN he⟩
  · intro he hh
    rw [callsSince_of_append _ _ _ (hE he), hh]
    simp [Call.isExceptionReport]
  · intro he hh
    rw [callsSince_of_append _ _ _ (hE he), hh]
    simp [Call.isExceptionReport]
  · intro he hh
    rw [callsSince_of_append _ _ _ (hN he), hh]
    simp [Call.isExceptionReport]
  · intro he hh
    rw [callsSince_of_append _ _ _ (hN he), hh]
    simp [Call.isExceptionReport]

/-- Both paths, on collaborators that handle nothing and on collaborators that
handle everything. -/
theorem receiveDirectiveLocked_reports_unhandled_witness :
    (callsSince queuedIdle
        (receiveDirectiveLocked idleCollaborators queuedIdle)).filter Call.isExceptionReport =
        [Call.sendExceptionEncountered "rawA" ExceptionErrorType.UNSUPPORTED_OPERATION
          "Unsupported operation"] ∧
      (callsSince queuedEager
        (receiveDirectiveLocked eagerCollaborators queuedEager)).filter
          Call.isExceptionReport = [] ∧
      (callsSince queuedIdleB
        (receiveDirectiveLocked idleCollaborators queuedIdleB)).filter Call.isExceptionReport =
        [Call.sendExceptionEncountered "rawB" ExceptionErrorType.UNSUPPORTED_OPERATION
          "Unsupported operation"] ∧
      (callsSince queuedEagerB
        (receiveDirectiveLocked eagerCollaborators queuedEagerB)).filter
          Call.isExceptionReport = [] :=
  ⟨(receiveDirectiveLocked_reports_unhandled idleCollaborators queuedIdle directiveA
      [directiveB] rfl).2.1 rfl rfl,
    (receiveDirectiveLocked_reports_unhandled eagerCollaborators queuedEager directiveA
      [directiveB] rfl).2.2.1 rfl rfl,
    (receiveDirectiveLocked_reports_unhandled idleCollaborators queuedIdleB directiveB
      [] rfl).2.2.2.1 (by decide) rfl,
    (receiveDirectiveLocked_reports_unhandled eagerCollaborators queuedEagerB directiveB
      [] rfl).2.2.2.2 (by decide) rfl⟩

/-! ## First in, first out -/

/-- A rejected directive, the exit of the worker and a shutdown, with the flag set
throughout. -/
theorem shuttingDown_is_permanent_witness :
    stoppingIdle.m_isShuttingDown = true ∧
      run idleCollaborators stoppingIdle
        [Op.onDirective (some directiveA), Op.receivingLoopIteration, Op.shutdown] =
        some (stoppedIdle, []) ∧
      stoppedIdle.m_isShuttingDown = true ∧
      stoppedIdle.m_receivingQueue = stoppingIdle.m_receivingQueue :=
  ⟨rfl, rfl,
    (shuttingDown_is_permanent idleCollaborators stoppingIdle
      [Op.onDirective (some directiveA), Op.receivingLoopIteration, Op.shutdown]
      (stoppedIdle, []) rfl rfl).1,
    (shuttingDown_is_permanent idleCollaborators stoppingIdle
      [Op.onDirective (some directiveA), Op.receivingLoopIteration, Op.shutdown]
      (stoppedIdle, []) rfl rfl).2.1⟩

/-! ## Shutting down twice -/

/-- C8, as stated, fails: on a newly constructed sequencer whose processor and
router have no state at all, two `shutdown()` calls in succession do not end in
the state and call log of a single one.  The second call makes one more call,
`m_directiveProcessor->shutdown()`, so the log holds two processor shutdowns
where a single `shutdown()` leaves one. -/
theorem shutdown_twice_differs :
    (shutdown idleCollaborators freshIdle).bind (shutdown idleCollaborators) ≠
        shutdown idleCollaborators freshIdle ∧
      shutdown idleCollaborators freshIdle = some shutIdle ∧
      shutdown idleCollaborators shutIdle = some shutIdleTwice ∧
      callsSince shutIdle shutIdleTwice = [Call.processorShutdown] ∧
      (shutIdle.calls.filter Call.isProcessorShutdown).length = 1 ∧
      (shutIdleTwice.calls.filter Call.isProcessorShutdown).length = 2 := by
  refine ⟨by decide, rfl, rfl, rfl, rfl, rfl⟩

/-- C8, amended: `shutdown()` always returns, with the flag set and the receiving
thread joined; a second `shutdown()` right after also returns, leaves the
sequencer's own members (exception sender, flag, queue, thread) as they are and
does not join again, and its one effect is one more `shutdown()` call on the
processor, with whatever change that call makes to the processor and router. -/
theorem second_shutdown_only_notifies_processor (cs : Collaborators ρ π κ) (s : DirectiveSequencer ρ π ε κ) :
    ∃ s1 s2 : DirectiveSequencer ρ π ε κ,
      shutdown cs s = some s1 ∧ shutdown cs s1 = some s2 ∧
        s1.m_isShuttingDown = true ∧ s1.m_receivingThread = ReceivingThread.joined ∧
        s1.m_receivingQueue = s.m_receivingQueue ∧
        s2 = { s1 with
          m_directiveProcessor :=
            (cs.processorShutdown s1.m_directiveProcessor s1.m_directiveRouter).1
          m_directiveRouter :=
            (cs.processorShutdown s1.m_directiveProcessor s1.m_directiveRouter).2
          calls := s1.calls ++ [Call.processorShutdown] } ∧
        callsSince s1 s2 = [Call.processorShutdown] ∧
        (callsSince s1 s2).filter Call.isThreadJoin = [] := by
  refine ⟨_, _, shutdown_eq cs s, shutdown_eq cs _, rfl, rfl, rfl, ?_, ?_, ?_⟩
  · simp [ReceivingThread.joinable]
  · simp [callsSince, ReceivingThread.joinable]
  · simp [callsSince, ReceivingThread.joinable, Call.isThreadJoin]

end adsl
end alexaClientSDK
